import Mathlib

/- Lean embedding of the GenomicsDataProccessing repository: three Python
   scripts that consolidate GWAS summary statistics
   (create_all_consolidated_data.py), sort, p-value-filter, compress and
   index them (create_tabix_files.py), and re-match the subsets against the
   consolidated catalog (match_all_snps.py).  Python dicts are modelled
   extensionally as functions from String to Option values; gzipped text
   files are modelled as the list of their lines; the machine floats
   produced by the Python float() conversion are modelled as exact
   rationals parsed from the decimal text. -/

namespace GenomicsData

/-- Variant record: the snp_info dictionary built identically in
create_all_consolidated_data.process_gz_file (lines 41-52) and
match_all_snps.process_gz_file (lines 57-68); all ten fields are kept
verbatim as strings, no conversion is applied. -/
structure SnpInfo where
  chromosome : String
  position : String
  ref_allele : String
  alt_allele : String
  beta : String
  se : String
  p_value : String
  aaf : String
  n : String
  n_study : String
deriving DecidableEq

/-- Column offsets for one tool, the shape of one entry of the
COLUMN_MAPPINGS dictionary shared by both scripts. -/
structure ColumnMapping where
  id : Nat
  chr : Nat
  pos : Nat
  ref : Nat
  alt : Nat
  beta : Nat
  se : Nat
  pval : Nat
  aaf : Nat
  n : Nat
  n_study : Nat
deriving DecidableEq

/-- The mrmega entry of COLUMN_MAPPINGS. -/
def mrmega_mapping : ColumnMapping :=
  ⟨0, 1, 2, 3, 4, 5, 6, 7, 12, 16, 18⟩

/-- The gwama entry of COLUMN_MAPPINGS (identical to the mrmega entry). -/
def gwama_mapping : ColumnMapping :=
  ⟨0, 1, 2, 3, 4, 5, 6, 7, 12, 16, 18⟩

/-- Lookup in the COLUMN_MAPPINGS dictionary; a key other than the two
configured tools raises KeyError in Python, modelled as none. -/
def COLUMN_MAPPINGS (software_type : String) : Option ColumnMapping :=
  if software_type = "mrmega" then some mrmega_mapping
  else if software_type = "gwama" then some gwama_mapping
  else none

/-- Embedding of the Python expression max(mapping.values()). -/
def ColumnMapping.maxVal (m : ColumnMapping) : Nat :=
  Nat.max m.id (Nat.max m.chr (Nat.max m.pos (Nat.max m.ref (Nat.max m.alt
    (Nat.max m.beta (Nat.max m.se (Nat.max m.pval (Nat.max m.aaf
      (Nat.max m.n m.n_study)))))))))

/-- Python dicts with string keys, modelled extensionally as lookup
functions. -/
abbrev Dict (V : Type) : Type := String → Option V

/-- The empty dict literal. -/
def emptyD {V : Type} : Dict V := fun _ => none

/-- The Python assignment d[k] = v. -/
def dset {V : Type} (d : Dict V) (k : String) (v : V) : Dict V :=
  fun q => if q = k then some v else d q

/-- The Python call d.update(e): keys of e override keys of d. -/
def dUpdate {V : Type} (d e : Dict V) : Dict V :=
  fun q =>
    match e q with
    | some v => some v
    | none => d q

/-- Innermost level of the consolidated catalog: cohort to record. -/
abbrev CohortMap : Type := Dict SnpInfo

/-- Middle level of the consolidated catalog: phenotype to cohort map. -/
abbrev PhenoMap : Type := Dict CohortMap

/-- The consolidated catalog: variant identifier to phenotype map. -/
abbrev Catalog : Type := Dict PhenoMap

/-- Three-level lookup catalog[sid][ph][co], none when any level is
missing. -/
def catLookup (c : Catalog) (sid ph co : String) : Option SnpInfo :=
  match c sid with
  | none => none
  | some phm =>
    match phm ph with
    | none => none
    | some com => com co

/-- Auxiliary tail for splitting a character list at a separator. -/
def splitCharAux (sep : Char) : List Char → List Char → List String
  | [], acc => [String.mk acc.reverse]
  | c :: rest, acc =>
    if c = sep then String.mk acc.reverse :: splitCharAux sep rest []
    else splitCharAux sep rest (c :: acc)

/-- Embedding of the Python call s.split with the tab separator, as used
on every data line of every script. -/
def split_tab (s : String) : List String :=
  splitCharAux '\t' s.data []

/-- Embedding of the Python call filename.split with the dot separator,
used to derive phenotype and cohort from the first two filename
components. -/
def split_dot (s : String) : List String :=
  splitCharAux '.' s.data []

/-- Embedding of the Python call s.strip: remove leading and trailing
whitespace. -/
def pystrip (s : String) : String :=
  String.mk (((s.data.dropWhile Char.isWhitespace).reverse.dropWhile
    Char.isWhitespace).reverse)

/-- Embedding of the expression line.strip and split on tab, shared by the
per-line loops of all three scripts. -/
def line_fields (line : String) : List String :=
  split_tab (pystrip line)

/-- Embedding of the snp_info construction common to both per-line loops:
each field is read at its configured offset; a missing index is the
IndexError branch of the surrounding try, modelled as none. -/
def build_snp_info (m : ColumnMapping) (fields : List String) : Option SnpInfo := do
  let c ← fields[m.chr]?
  let p ← fields[m.pos]?
  let r ← fields[m.ref]?
  let a ← fields[m.alt]?
  let b ← fields[m.beta]?
  let s ← fields[m.se]?
  let pv ← fields[m.pval]?
  let af ← fields[m.aaf]?
  let cnt ← fields[m.n]?
  let ns ← fields[m.n_study]?
  pure ⟨c, p, r, a, b, s, pv, af, cnt, ns⟩

namespace Tabix

/-- Embedding of the Python float() conversion applied to a p-value field
in create_tabix_files.create_tabix_file line 63: a decimal literal with
optional sign, integer part, fractional part and exponent is parsed to an
exact rational; any other text raises ValueError, modelled as none. -/
def takeDigits (cs : List Char) : List Char × List Char :=
  (cs.takeWhile Char.isDigit, cs.dropWhile Char.isDigit)

/-- Numeric value of a digit string, most significant digit first. -/
def natOfDigits (ds : List Char) : Nat :=
  ds.foldl (fun acc c => acc * 10 + (c.toNat - 48)) 0

/-- Parse the optional sign of a decimal literal; true means negative. -/
def takeSign (cs : List Char) : Bool × List Char :=
  match cs with
  | '-' :: rest => (true, rest)
  | '+' :: rest => (false, rest)
  | _ => (false, cs)

/-- Parse the digit string of an exponent and scale the mantissa by the
corresponding power of ten; the rational is assembled with mkRat so that
every step is kernel computable. -/
def expAux (mant : ℚ) (rest : List Char) : Option ℚ :=
  let sr := takeSign rest
  let dr := takeDigits sr.2
  if dr.1.isEmpty ∨ ¬ dr.2.isEmpty then none
  else if sr.1 then some (mkRat mant.num (mant.den * 10 ^ natOfDigits dr.1))
  else some (mkRat (mant.num * Int.ofNat (10 ^ natOfDigits dr.1)) mant.den)

/-- Parse the exponent suffix that may follow the mantissa: nothing, or
the letter e or E with an optionally signed digit string. -/
def applyExponent (mant : ℚ) (cs : List Char) : Option ℚ :=
  match cs with
  | [] => some mant
  | 'e' :: rest => expAux mant rest
  | 'E' :: rest => expAux mant rest
  | _ => none

/-- Embedding of Python float(s) on decimal text, as an exact rational;
the pair fr holds the fractional digits and the remainder of the text
after the mantissa. -/
def pyFloat (s : String) : Option ℚ :=
  let sgn := takeSign s.data
  let ir := takeDigits sgn.2
  let fr :=
    match ir.2 with
    | '.' :: rest => takeDigits rest
    | _ => ([], ir.2)
  if ir.1.isEmpty ∧ fr.1.isEmpty then none
  else
    let mant : ℚ :=
      mkRat (Int.ofNat (natOfDigits ir.1 * 10 ^ fr.1.length + natOfDigits fr.1))
        (10 ^ fr.1.length)
    match applyExponent mant fr.2 with
    | none => none
    | some v => some (if sgn.1 then mkRat (-v.num) v.den else v)

/-- State threaded through the filter loop of create_tabix_file (step 3,
lines 49-84): the data rows written to the filtered file so far and the
three counters.  The header is written unconditionally before the loop
and is not a data row; filtered_lines starts at 1 because the header is
counted. -/
structure FilterState where
  total_lines : Nat
  filtered_rows : List String
  filtered_lines : Nat
  error_lines : Nat
deriving DecidableEq

/-- Boolean form of the test pval_min is None or pval greater or equal
pval_min. -/
def lower_ok (b : Option ℚ) (p : ℚ) : Bool :=
  match b with
  | none => true
  | some mn => decide (mn ≤ p)

/-- Boolean form of the test pval_max is None or pval less or equal
pval_max. -/
def upper_ok (b : Option ℚ) (p : ℚ) : Bool :=
  match b with
  | none => true
  | some mx => decide (p ≤ mx)

/-- One iteration of the filter loop of create_tabix_file over a data
line: count the line, split on tabs after stripping, drop short lines and
unparsable p-values as errors, drop p-values outside the unit interval as
errors, and write the line only when it lies inside the requested band. -/
def filter_step (pval_min pval_max : Option ℚ) (st : FilterState) (line : String) :
    FilterState :=
  let st1 : FilterState := { st with total_lines := st.total_lines + 1 }
  let fields := line_fields line
  if fields.length < 8 then
    { st1 with error_lines := st1.error_lines + 1 }
  else
    match fields[7]? with
    | none => { st1 with error_lines := st1.error_lines + 1 }
    | some s =>
      match pyFloat s with
      | none => { st1 with error_lines := st1.error_lines + 1 }
      | some p =>
        if 0 ≤ p ∧ p ≤ 1 then
          if lower_ok pval_min p && upper_ok pval_max p then
            { st1 with
                filtered_rows := st1.filtered_rows ++ [line],
                filtered_lines := st1.filtered_lines + 1 }
          else st1
        else { st1 with error_lines := st1.error_lines + 1 }

/-- The whole filter step of create_tabix_file applied to the lines of the
sorted file: the first line is the header, written before the loop and
counted once; every further line goes through filter_step. -/
def filter_sorted_lines (pval_min pval_max : Option ℚ) (lines : List String) :
    FilterState :=
  lines.tail.foldl (filter_step pval_min pval_max) ⟨0, [], 1, 0⟩

/-- P-value of a data line as seen by the filter: field at index 7 of the
stripped tab-split line, converted by float. -/
def pval_field (line : String) : Option ℚ :=
  ((line_fields line)[7]?).bind pyFloat

/-- Observable filesystem and subprocess effects of one call of
create_tabix_file, in program order.  A step appears in the trace only
when it completed successfully. -/
inductive Ev where
  | count_input
  | write_sorted
  | write_filtered
  | run_bgzip
  | run_tabix
  | read_artifacts
  | remove_sorted
  | remove_filtered
deriving DecidableEq

/-- Exit behaviour of the four external tool invocations of
create_tabix_file: the line count subprocess, the sort subprocess, the
bgzip compression and the tabix indexer.  True means zero exit status. -/
structure ExtTools where
  wc_ok : Bool
  sort_ok : Bool
  bgzip_ok : Bool
  tabix_ok : Bool

/-- Effect-level embedding of create_tabix_file: the ordered effects the
call performs and whether the call returns normally (false means an
uncaught exception propagates to the caller).  The line count and the
sort run inside try blocks that print and re-raise; bgzip runs with the
check flag and no surrounding try, so its failure raises directly; the
tabix invocation re-raises from its handler; the filter loop itself
cannot raise.  The two intermediate files are removed only in the final
lines of the function, after the compressed artifact and its index have
been created and read back. -/
def create_tabix_file_events (t : ExtTools) : List Ev × Bool :=
  if t.wc_ok = false then ([], false)
  else if t.sort_ok = false then ([Ev.count_input], false)
  else if t.bgzip_ok = false then
    ([Ev.count_input, Ev.write_sorted, Ev.write_filtered], false)
  else if t.tabix_ok = false then
    ([Ev.count_input, Ev.write_sorted, Ev.write_filtered, Ev.run_bgzip], false)
  else
    ([Ev.count_input, Ev.write_sorted, Ev.write_filtered, Ev.run_bgzip,
      Ev.run_tabix, Ev.read_artifacts, Ev.remove_sorted, Ev.remove_filtered],
      true)

end Tabix

namespace Consolidate

/-- Body of the per-line loop of create_all_consolidated_data
process_gz_file (lines 35-66): strip and split the line, skip it when it
has fewer fields than the highest configured column index plus one,
otherwise build the record and store it under the identifier field, the
phenotype and the cohort; a missing index inside the try is modelled by
the none branches and leaves the catalog unchanged. -/
def process_line (m : ColumnMapping) (phenotype cohort : String)
    (snp_data : Catalog) (line : String) : Catalog :=
  let fields := line_fields line
  if fields.length < m.maxVal + 1 then snp_data
  else
    match build_snp_info m fields, fields[m.id]? with
    | some info, some snp_id =>
      let phm := (snp_data snp_id).getD emptyD
      let com := (phm phenotype).getD emptyD
      dset snp_data snp_id (dset phm phenotype (dset com cohort info))
    | _, _ => snp_data

/-- Embedding of create_all_consolidated_data process_gz_file: phenotype
and cohort are the first two dot components of the basename, the first
line is consumed as header, the rest go through process_line.  An
unknown software type, a filename without a second dot component or an
empty file raises, modelled as none and caught by the caller. -/
def process_gz_file (software_type filename : String) (lines : List String) :
    Option Catalog :=
  match COLUMN_MAPPINGS software_type with
  | none => none
  | some m =>
    match (split_dot filename)[0]?, (split_dot filename)[1]? with
    | some phenotype, some cohort =>
      match lines with
      | [] => none
      | _headerLine :: rest =>
        some (rest.foldl (process_line m phenotype cohort) emptyD)
    | _, _ => none

/-- Catalog contributed by one file, the empty catalog when its
processing raised (the except branch of process_software_type). -/
def file_catalog (software_type : String) (f : String × List String) : Catalog :=
  (process_gz_file software_type f.1 f.2).getD emptyD

/-- Embedding of create_all_consolidated_data process_software_type on
the globbed file list (each file given as basename and lines): every
file catalog is merged into the consolidated catalog with the top-level
dict update of line 84; a raising file is skipped. -/
def process_software_type (software_type : String)
    (gz_files : List (String × List String)) : Catalog :=
  gz_files.foldl
    (fun acc f =>
      match process_gz_file software_type f.1 f.2 with
      | some file_data => dUpdate acc file_data
      | none => acc)
    emptyD

/-- A line writes the identifier sid exactly when it passes the field
count guard and its identifier column holds sid; by the totality of the
record construction such a line always stores a record. -/
def writes_id (m : ColumnMapping) (sid : String) (line : String) : Prop :=
  m.maxVal + 1 ≤ (line_fields line).length ∧
    (line_fields line)[m.id]? = some sid

end Consolidate

namespace MatchSnps

/-- Body of the per-line loop of match_all_snps process_gz_file (lines
45-80): skip short lines; skip lines whose identifier is absent from the
original consolidated catalog; otherwise add the identifier to the
matched set and store the rebuilt record.  A missing index while
building the record is caught after the matched set was already
extended. -/
def process_line (m : ColumnMapping) (original_snp_data : Catalog)
    (phenotype cohort : String) (st : Catalog × (String → Bool))
    (line : String) : Catalog × (String → Bool) :=
  let fields := line_fields line
  if fields.length < m.maxVal + 1 then st
  else
    match fields[m.id]? with
    | none => st
    | some snp_id =>
      if (original_snp_data snp_id).isSome then
        let matched := fun q => if q = snp_id then true else st.2 q
        match build_snp_info m fields with
        | none => (st.1, matched)
        | some info =>
          let phm := (st.1 snp_id).getD emptyD
          let com := (phm phenotype).getD emptyD
          (dset st.1 snp_id (dset phm phenotype (dset com cohort info)),
            matched)
      else st

/-- Embedding of match_all_snps process_gz_file: returns the per-file
catalog together with the per-file matched identifier set. -/
def process_gz_file (software_type : String) (original_snp_data : Catalog)
    (filename : String) (lines : List String) :
    Option (Catalog × (String → Bool)) :=
  match COLUMN_MAPPINGS software_type, (split_dot filename)[0]?,
      (split_dot filename)[1]? with
  | some m, some phenotype, some cohort =>
    match lines with
    | [] => none
    | _headerLine :: rest =>
      some (rest.foldl (process_line m original_snp_data phenotype cohort)
        (emptyD, fun _ => false))
  | _, _, _ => none

/-- Embedding of the merge loop of match_all_snps process_software_type
(lines 114-117): for every identifier of the file data, the existing
entry (or a fresh empty dict) is updated with the file phenotype map by
a dict update at the phenotype level. -/
def merge_file_data (new_data : Catalog) (file_data : Catalog) : Catalog :=
  fun sid =>
    match file_data sid with
    | none => new_data sid
    | some snp_info => some (dUpdate ((new_data sid).getD emptyD) snp_info)

/-- Embedding of match_all_snps process_software_type on the globbed file
list: per-file matched sets are unioned into the total matched set and
per-file catalogs are merged with merge_file_data; a raising file is
skipped. -/
def process_software_type (software_type : String)
    (original_snp_data : Catalog) (gz_files : List (String × List String)) :
    Catalog × (String → Bool) :=
  gz_files.foldl
    (fun acc f =>
      match process_gz_file software_type original_snp_data f.1 f.2 with
      | some fr => (merge_file_data acc.1 fr.1, fun q => acc.2 q || fr.2 q)
      | none => acc)
    (emptyD, fun _ => false)

end MatchSnps

/-- Every mapping returned by COLUMN_MAPPINGS is one of the two
configured layouts. -/
theorem COLUMN_MAPPINGS_cases {s : String} {m : ColumnMapping}
    (h : COLUMN_MAPPINGS s = some m) :
    m = mrmega_mapping ∨ m = gwama_mapping := by
  unfold COLUMN_MAPPINGS at h
  split_ifs at h <;> simp_all

/-- The two configured layouts are the same record. -/
theorem gwama_eq_mrmega : gwama_mapping = mrmega_mapping := rfl

/-- The field count guard threshold of both layouts is 19. -/
theorem mrmega_maxVal : mrmega_mapping.maxVal + 1 = 19 := rfl

/-- On a line with at least 19 fields, every configured column access of
the record construction is in bounds, so the construction returns a
record and the identifier column is readable. -/
theorem build_snp_info_total (m : ColumnMapping) (fields : List String)
    (hm : m = mrmega_mapping ∨ m = gwama_mapping)
    (h : 19 ≤ fields.length) :
    (build_snp_info m fields).isSome = true ∧
      (fields[m.id]?).isSome = true := by
  have h0 : 0 < fields.length := by omega
  have h1 : 1 < fields.length := by omega
  have h2 : 2 < fields.length := by omega
  have h3 : 3 < fields.length := by omega
  have h4 : 4 < fields.length := by omega
  have h5 : 5 < fields.length := by omega
  have h6 : 6 < fields.length := by omega
  have h7 : 7 < fields.length := by omega
  have h12 : 12 < fields.length := by omega
  have h16 : 16 < fields.length := by omega
  have h18 : 18 < fields.length := by omega
  rcases hm with hm | hm <;> subst hm <;>
    refine ⟨?_, ?_⟩ <;>
    simp [build_snp_info, mrmega_mapping, gwama_mapping,
      List.getElem?_eq_getElem, h0, h1, h2, h3, h4, h5, h6, h7, h12, h16, h18]

/-- C10: in per-file consolidation and per-file matching, every line that
passes the field count guard (at least the highest configured column
index plus one fields, which is 19 for both tools) has all configured
column accesses in bounds: the shared record construction returns a
record and the identifier column is readable, so the
IndexError/ValueError handler around the per-line record construction is
unreachable and per-line processing is total. -/
theorem c10_record_construction_total (fields : List String)
    (h : mrmega_mapping.maxVal + 1 ≤ fields.length) :
    (build_snp_info mrmega_mapping fields).isSome = true ∧
    (fields[mrmega_mapping.id]?).isSome = true ∧
    (build_snp_info gwama_mapping fields).isSome = true ∧
    (fields[gwama_mapping.id]?).isSome = true ∧
    mrmega_mapping.maxVal + 1 = 19 ∧ gwama_mapping.maxVal + 1 = 19 := by
  have h19 : 19 ≤ fields.length := h
  obtain ⟨a, b⟩ := build_snp_info_total mrmega_mapping fields (Or.inl rfl) h19
  obtain ⟨c, d⟩ := build_snp_info_total gwama_mapping fields (Or.inr rfl) h19
  exact ⟨a, b, c, d, rfl, rfl⟩

/-- C10 witness: a concrete 19-field line passes the guard and its record
is built. -/
theorem c10_record_construction_total_witness :
    mrmega_mapping.maxVal + 1 ≤
      (["rs123", "1", "100", "A", "G", "0.1", "0.2", "0.001", "c8", "c9",
        "c10", "c11", "0.3", "c13", "c14", "c15", "1000", "c17", "5"] :
        List String).length ∧
    (build_snp_info mrmega_mapping
      ["rs123", "1", "100", "A", "G", "0.1", "0.2", "0.001", "c8", "c9",
       "c10", "c11", "0.3", "c13", "c14", "c15", "1000", "c17", "5"]).isSome =
      true :=
  ⟨by decide,
    (c10_record_construction_total
      ["rs123", "1", "100", "A", "G", "0.1", "0.2", "0.001", "c8", "c9",
       "c10", "c11", "0.3", "c13", "c14", "c15", "1000", "c17", "5"]
      (by decide)).1⟩

namespace Tabix

/-- C7: when every external tool of one create_tabix_file run exits zero,
the run returns normally and the two intermediate files are removed only
after the compression and indexing steps have completed; when the
compression or the indexing tool exits non-zero, the exception
propagates out of the call (the run does not return normally) and no
removal is performed. -/
theorem c7_cleanup_and_propagation (t : ExtTools) :
    (t.wc_ok = true → t.sort_ok = true → t.bgzip_ok = true →
      t.tabix_ok = true →
      (create_tabix_file_events t).2 = true ∧
      ∃ pre, (create_tabix_file_events t).1 =
          pre ++ [Ev.remove_sorted, Ev.remove_filtered] ∧
        Ev.run_bgzip ∈ pre ∧ Ev.run_tabix ∈ pre) ∧
    (t.wc_ok = true → t.sort_ok = true → t.bgzip_ok = false →
      (create_tabix_file_events t).2 = false ∧
      Ev.remove_sorted ∉ (create_tabix_file_events t).1 ∧
      Ev.remove_filtered ∉ (create_tabix_file_events t).1) ∧
    (t.wc_ok = true → t.sort_ok = true → t.bgzip_ok = true →
      t.tabix_ok = false →
      (create_tabix_file_events t).2 = false ∧
      Ev.remove_sorted ∉ (create_tabix_file_events t).1 ∧
      Ev.remove_filtered ∉ (create_tabix_file_events t).1) := by
  obtain ⟨w, s, b, x⟩ := t
  refine ⟨?_, ?_, ?_⟩
  · intro hw hs hb hx
    subst hw; subst hs; subst hb; subst hx
    refine ⟨rfl, ?_⟩
    exact ⟨[Ev.count_input, Ev.write_sorted, Ev.write_filtered,
      Ev.run_bgzip, Ev.run_tabix, Ev.read_artifacts], rfl, by decide, by decide⟩
  · intro hw hs hb
    subst hw; subst hs; subst hb
    exact ⟨rfl, by simp [create_tabix_file_events],
      by simp [create_tabix_file_events]⟩
  · intro hw hs hb hx
    subst hw; subst hs; subst hb; subst hx
    exact ⟨rfl, by decide, by decide⟩

/-- C7 witness: the all-success run and the bgzip failure run, applied to
the theorem at concrete tool outcomes. -/
theorem c7_cleanup_and_propagation_witness :
    ((create_tabix_file_events ⟨true, true, true, true⟩).2 = true ∧
      ∃ pre, (create_tabix_file_events ⟨true, true, true, true⟩).1 =
          pre ++ [Ev.remove_sorted, Ev.remove_filtered] ∧
        Ev.run_bgzip ∈ pre ∧ Ev.run_tabix ∈ pre) ∧
    ((create_tabix_file_events ⟨true, true, false, true⟩).2 = false ∧
      Ev.remove_sorted ∉ (create_tabix_file_events ⟨true, true, false, true⟩).1 ∧
      Ev.remove_filtered ∉
        (create_tabix_file_events ⟨true, true, false, true⟩).1) :=
  ⟨(c7_cleanup_and_propagation ⟨true, true, true, true⟩).1 rfl rfl rfl rfl,
    (c7_cleanup_and_propagation ⟨true, true, false, true⟩).2.1 rfl rfl rfl⟩

/-- A true lower bound test means the bound, when present, is below the
value. -/
theorem lower_ok_le {b : Option ℚ} {p : ℚ} (h : lower_ok b p = true) :
    ∀ mn, b = some mn → mn ≤ p := by
  intro mn hb
  subst hb
  simpa [lower_ok] using h

/-- A true upper bound test means the value is below the bound, when the
bound is present. -/
theorem upper_ok_le {b : Option ℚ} {p : ℚ} (h : upper_ok b p = true) :
    ∀ mx, b = some mx → p ≤ mx := by
  intro mx hb
  subst hb
  simpa [upper_ok] using h

/-- Case analysis of one filter iteration: either the written rows are
unchanged, or exactly the current line was appended and the line has at
least eight fields, a p-value that parses, lies in the unit interval and
passes both band bound tests. -/
theorem filter_step_rows (pval_min pval_max : Option ℚ) (st : FilterState)
    (line : String) :
    (filter_step pval_min pval_max st line).filtered_rows = st.filtered_rows ∨
    ((filter_step pval_min pval_max st line).filtered_rows =
        st.filtered_rows ++ [line] ∧
      8 ≤ (line_fields line).length ∧
      ∃ p, pval_field line = some p ∧ 0 ≤ p ∧ p ≤ 1 ∧
        lower_ok pval_min p = true ∧ upper_ok pval_max p = true) := by
  unfold filter_step
  dsimp only
  split
  · left; rfl
  · rename_i hlen
    split
    · left; rfl
    · rename_i s hs
      split
      · left; rfl
      · rename_i p hp
        split
        · rename_i h01
          split
          · rename_i hband
            right
            refine ⟨rfl, by omega, p, ?_, h01.1, h01.2, ?_, ?_⟩
            · simp [pval_field, hs, hp]
            · exact (Bool.and_eq_true _ _).mp hband |>.1
            · exact (Bool.and_eq_true _ _).mp hband |>.2
          · left; rfl
        · left; rfl

/-- C4: for every p-value band and every data row present in the filtered
output of the filter step of create_tabix_file, the row has at least
eight fields, its p-value field parses to a number p, and p satisfies
the band bounds: an absent lower bound is treated as minus infinity and
an absent upper bound as plus infinity; rows with too few fields or an
unparsable p-value never appear in the filtered output. -/
theorem c4_filtered_rows_in_band (pval_min pval_max : Option ℚ)
    (lines : List String) (row : String)
    (hrow : row ∈ (filter_sorted_lines pval_min pval_max lines).filtered_rows) :
    8 ≤ (line_fields row).length ∧
    ∃ p, pval_field row = some p ∧
      (∀ mn, pval_min = some mn → mn ≤ p) ∧
      (∀ mx, pval_max = some mx → p ≤ mx) := by
  let P : String → Prop := fun r =>
    8 ≤ (line_fields r).length ∧
    ∃ p, pval_field r = some p ∧
      (∀ mn, pval_min = some mn → mn ≤ p) ∧
      (∀ mx, pval_max = some mx → p ≤ mx)
  have inv : ∀ (ls : List String) (st : FilterState),
      (∀ r ∈ st.filtered_rows, P r) →
      ∀ r ∈ (ls.foldl (filter_step pval_min pval_max) st).filtered_rows, P r := by
    intro ls
    induction ls with
    | nil => intro st h r hr; exact h r hr
    | cons l ls ih =>
      intro st h r hr
      rw [List.foldl_cons] at hr
      refine ih (filter_step pval_min pval_max st l) ?_ r hr
      intro q hq
      rcases filter_step_rows pval_min pval_max st l with
        hcase | ⟨heq, hlen, p, hp, _, _, hlow, hup⟩
      · rw [hcase] at hq; exact h q hq
      · rw [heq] at hq
        rcases List.mem_append.mp hq with hq | hq
        · exact h q hq
        · have hql : q = l := by simpa using hq
          subst hql
          exact ⟨hlen, p, hp, lower_ok_le hlow, upper_ok_le hup⟩
  exact inv lines.tail ⟨0, [], 1, 0⟩ (by intro r hr; simp at hr) row hrow

/-- C4 witness: an unbounded band retains a concrete row with p-value
0.5, and the theorem applies to it. -/
theorem c4_filtered_rows_in_band_witness :
    "a\tb\tc\td\te\tf\tg\t0.5" ∈
      (filter_sorted_lines none none
        ["hdr", "a\tb\tc\td\te\tf\tg\t0.5"]).filtered_rows ∧
    (8 ≤ (line_fields "a\tb\tc\td\te\tf\tg\t0.5").length ∧
      ∃ p, pval_field "a\tb\tc\td\te\tf\tg\t0.5" = some p ∧
        (∀ mn, (none : Option ℚ) = some mn → mn ≤ p) ∧
        (∀ mx, (none : Option ℚ) = some mx → p ≤ mx)) :=
  ⟨by decide,
    c4_filtered_rows_in_band none none ["hdr", "a\tb\tc\td\te\tf\tg\t0.5"]
      "a\tb\tc\td\te\tf\tg\t0.5" (by decide)⟩

/-- C9: the filter drops every data row whose p-value parses to a number
outside the closed unit interval, counting it as an error line, for
every band including the fully unbounded one: the row is never appended
to the filtered rows. -/
theorem c9_out_of_range_pval_dropped (pval_min pval_max : Option ℚ)
    (st : FilterState) (line : String) (p : ℚ)
    (hp : pval_field line = some p) (hout : p < 0 ∨ 1 < p) :
    (filter_step pval_min pval_max st line).filtered_rows = st.filtered_rows ∧
    (filter_step pval_min pval_max st line).error_lines = st.error_lines + 1 := by
  obtain ⟨s, hs, hpf⟩ := Option.bind_eq_some.mp hp
  have h7 : 7 < (line_fields line).length := by
    by_contra hc
    rw [List.getElem?_eq_none (by omega)] at hs
    exact Option.noConfusion hs
  have hnot : ¬ (0 ≤ p ∧ p ≤ 1) := by
    rcases hout with hout | hout
    · exact fun hc => absurd hc.1 (not_le.mpr hout)
    · exact fun hc => absurd hc.2 (not_le.mpr hout)
  unfold filter_step
  dsimp only
  rw [if_neg (by omega), hs]
  dsimp only
  rw [hpf]
  dsimp only
  rw [if_neg hnot]
  exact ⟨rfl, rfl⟩

/-- C9 witness: a concrete row whose p-value field reads 2 is dropped and
counted as an error by the unbounded band. -/
theorem c9_out_of_range_pval_dropped_witness :
    pval_field "a\tb\tc\td\te\tf\tg\t2" = some (mkRat 2 1) ∧
    ((mkRat 2 1 : ℚ) < 0 ∨ (1:ℚ) < mkRat 2 1) ∧
    (filter_step none none ⟨0, [], 1, 0⟩
        "a\tb\tc\td\te\tf\tg\t2").filtered_rows = [] ∧
    (filter_step none none ⟨0, [], 1, 0⟩
        "a\tb\tc\td\te\tf\tg\t2").error_lines = 0 + 1 :=
  ⟨by decide, Or.inr (by decide),
    (c9_out_of_range_pval_dropped none none ⟨0, [], 1, 0⟩
      "a\tb\tc\td\te\tf\tg\t2" (mkRat 2 1) (by decide)
      (Or.inr (by decide))).1,
    (c9_out_of_range_pval_dropped none none ⟨0, [], 1, 0⟩
      "a\tb\tc\td\te\tf\tg\t2" (mkRat 2 1) (by decide)
      (Or.inr (by decide))).2⟩

/-- C2 counterexample: a data row whose p-value field parses to 0.5 is
NOT included in the filtered output of the band with upper bound 1e-1
(one tenth) and no lower bound, contrary to the claim. -/
theorem c2_counterexample_pval_half_excluded_at_tenth :
    pyFloat "0.5" = some (mkRat 1 2) ∧
    ¬ ("a\tb\tc\td\te\tf\tg\t0.5" ∈
      (filter_sorted_lines none (some (mkRat 1 10))
        ["hdr", "a\tb\tc\td\te\tf\tg\t0.5"]).filtered_rows) := by
  decide

/-- C2 amended: a data row whose p-value field parses to 0.5 is excluded
from the filtered output when the band has upper bound 1e-5 and no lower
bound, is likewise excluded when the band has upper bound 1e-1 and no
lower bound (since 0.5 exceeds one tenth), and is included when the band
has no upper bound. -/
theorem c2_amended_pval_half_bands (st : FilterState) (line : String)
    (hp : pval_field line = some (mkRat 1 2)) :
    (filter_step none (some (mkRat 1 100000)) st line).filtered_rows =
      st.filtered_rows ∧
    (filter_step none (some (mkRat 1 10)) st line).filtered_rows =
      st.filtered_rows ∧
    (filter_step none none st line).filtered_rows =
      st.filtered_rows ++ [line] := by
  obtain ⟨s, hs, hpf⟩ := Option.bind_eq_some.mp hp
  have h7 : 7 < (line_fields line).length := by
    by_contra hc
    rw [List.getElem?_eq_none (by omega)] at hs
    exact Option.noConfusion hs
  refine ⟨?_, ?_, ?_⟩
  · unfold filter_step
    dsimp only
    rw [if_neg (by omega), hs]
    dsimp only
    rw [hpf]
    dsimp only
    rw [if_pos (by decide), if_neg (by decide)]
  · unfold filter_step
    dsimp only
    rw [if_neg (by omega), hs]
    dsimp only
    rw [hpf]
    dsimp only
    rw [if_pos (by decide), if_neg (by decide)]
  · unfold filter_step
    dsimp only
    rw [if_neg (by omega), hs]
    dsimp only
    rw [hpf]
    dsimp only
    rw [if_pos (by decide), if_pos (by decide)]

/-- C2 amended witness: the three band behaviours at a concrete row whose
p-value field reads 0.5. -/
theorem c2_amended_pval_half_bands_witness :
    pval_field "a\tb\tc\td\te\tf\tg\t0.5" = some (mkRat 1 2) ∧
    ((filter_step none (some (mkRat 1 100000)) ⟨0, [], 1, 0⟩
        "a\tb\tc\td\te\tf\tg\t0.5").filtered_rows = [] ∧
      (filter_step none (some (mkRat 1 10)) ⟨0, [], 1, 0⟩
        "a\tb\tc\td\te\tf\tg\t0.5").filtered_rows = [] ∧
      (filter_step none none ⟨0, [], 1, 0⟩
        "a\tb\tc\td\te\tf\tg\t0.5").filtered_rows =
        [] ++ ["a\tb\tc\td\te\tf\tg\t0.5"]) :=
  ⟨by decide,
    c2_amended_pval_half_bands ⟨0, [], 1, 0⟩ "a\tb\tc\td\te\tf\tg\t0.5"
      (by decide)⟩

end Tabix

/-- Lookup of a dict at the key just assigned. -/
theorem dset_same {V : Type} (d : Dict V) (k : String) (v : V) :
    dset d k v k = some v := by
  simp [dset]

/-- Lookup of a dict at a key other than the one just assigned. -/
theorem dset_other {V : Type} (d : Dict V) (k : String) (v : V) (q : String)
    (h : q ≠ k) : dset d k v q = d q := by
  simp [dset, h]

/-- Dict update at a key absent from the overriding dict. -/
theorem dUpdate_none {V : Type} (d e : Dict V) (k : String) (h : e k = none) :
    dUpdate d e k = d k := by
  simp [dUpdate, h]

/-- Dict update at a key present in the overriding dict. -/
theorem dUpdate_some {V : Type} (d e : Dict V) (k : String) (v : V)
    (h : e k = some v) : dUpdate d e k = some v := by
  simp [dUpdate, h]

namespace Consolidate

/-- A line that passes the guard and carries identifier sid stores its
record: the per-line step returns the catalog with the nested assignment
performed. -/
theorem process_line_writes (m : ColumnMapping) (phenotype cohort : String)
    (cat : Catalog) (line sid : String) (info : SnpInfo)
    (hlen : m.maxVal + 1 ≤ (line_fields line).length)
    (hinfo : build_snp_info m (line_fields line) = some info)
    (hid : (line_fields line)[m.id]? = some sid) :
    process_line m phenotype cohort cat line =
      dset cat sid
        (dset ((cat sid).getD emptyD) phenotype
          (dset ((((cat sid).getD emptyD) phenotype).getD emptyD) cohort
            info)) := by
  unfold process_line
  dsimp only
  rw [if_neg (by omega), hinfo, hid]

/-- A line that does not write sid leaves the catalog entry of sid
unchanged. -/
theorem process_line_skips (m : ColumnMapping) (phenotype cohort : String)
    (cat : Catalog) (line sid : String) (h : ¬ writes_id m sid line) :
    process_line m phenotype cohort cat line sid = cat sid := by
  unfold process_line
  dsimp only
  by_cases hlen : (line_fields line).length < m.maxVal + 1
  · rw [if_pos hlen]
  · rw [if_neg hlen]
    rcases hb : build_snp_info m (line_fields line) with _ | info <;>
      rcases hi : (line_fields line)[m.id]? with _ | snp_id <;>
      dsimp only
    have hne : sid ≠ snp_id := by
      intro hq
      exact h ⟨by omega, by rw [hi, hq]⟩
    exact dset_other cat snp_id _ sid hne

/-- Folding the per-line step over lines none of which writes sid leaves
the catalog entry of sid unchanged. -/
theorem fold_lines_skips (m : ColumnMapping) (phenotype cohort : String)
    (ls : List String) (cat : Catalog) (sid : String)
    (h : ∀ l ∈ ls, ¬ writes_id m sid l) :
    (ls.foldl (process_line m phenotype cohort) cat) sid = cat sid := by
  induction ls generalizing cat with
  | nil => rfl
  | cons l ls ih =>
    rw [List.foldl_cons, ih _ (fun q hq => h q (List.mem_cons_of_mem l hq)),
      process_line_skips m phenotype cohort cat l sid
        (h l (List.mem_cons_self l ls))]

/-- Folding the per-file merge over files none of which contributes sid
leaves the consolidated catalog entry of sid unchanged. -/
theorem fold_files_skips (software_type : String)
    (files : List (String × List String)) (acc : Catalog) (sid : String)
    (h : ∀ f ∈ files, file_catalog software_type f sid = none) :
    (files.foldl
      (fun acc f =>
        match process_gz_file software_type f.1 f.2 with
        | some file_data => dUpdate acc file_data
        | none => acc) acc) sid = acc sid := by
  induction files generalizing acc with
  | nil => rfl
  | cons f fs ih =>
    rw [List.foldl_cons, ih _ (fun q hq => h q (List.mem_cons_of_mem f hq))]
    have hf := h f (List.mem_cons_self f fs)
    unfold file_catalog at hf
    rcases hp : process_gz_file software_type f.1 f.2 with _ | c
    · rfl
    · rw [hp] at hf
      simp only [Option.getD_some] at hf
      exact dUpdate_none acc c sid hf

/-- C3 amended: a valid input row produces a record in the consolidated
catalog under exactly its identifier field, the phenotype and cohort
derived from the filename, with all ten fields taken verbatim from the
configured column offsets, PROVIDED the row is the last row of its file
that writes its identifier and no later file contributes that
identifier; the original universally quantified claim fails because a
later duplicate overwrites the record (last-write-wins within a file,
whole-entry replacement across files). -/
theorem c3_amended_last_writer_record (software_type fn : String)
    (m : ColumnMapping) (phenotype cohort : String)
    (pre post : List (String × List String)) (headerLine row sid : String)
    (l1 l2 : List String) (info : SnpInfo)
    (hm : COLUMN_MAPPINGS software_type = some m)
    (hph : (split_dot fn)[0]? = some phenotype)
    (hco : (split_dot fn)[1]? = some cohort)
    (hlen : m.maxVal + 1 ≤ (line_fields row).length)
    (hinfo : build_snp_info m (line_fields row) = some info)
    (hid : (line_fields row)[m.id]? = some sid)
    (hl2 : ∀ l ∈ l2, ¬ writes_id m sid l)
    (hpost : ∀ f ∈ post, file_catalog software_type f sid = none) :
    catLookup
      (process_software_type software_type
        (pre ++ (fn, headerLine :: (l1 ++ row :: l2)) :: post))
      sid phenotype cohort = some info := by
  unfold process_software_type
  rw [List.foldl_append, List.foldl_cons]
  set acc1 : Catalog := pre.foldl
    (fun acc f =>
      match process_gz_file software_type f.1 f.2 with
      | some file_data => dUpdate acc file_data
      | none => acc) emptyD with hacc1
  have hfile : process_gz_file software_type fn
      (headerLine :: (l1 ++ row :: l2)) =
      some ((l1 ++ row :: l2).foldl (process_line m phenotype cohort)
        emptyD) := by
    unfold process_gz_file
    rw [hm, hph, hco]
  have hcsid : ((l1 ++ row :: l2).foldl (process_line m phenotype cohort)
      emptyD) sid =
      some (dset (((l1.foldl (process_line m phenotype cohort) emptyD)
          sid).getD emptyD) phenotype
        (dset ((((l1.foldl (process_line m phenotype cohort) emptyD)
            sid).getD emptyD phenotype).getD emptyD) cohort info)) := by
    rw [List.foldl_append, List.foldl_cons]
    rw [fold_lines_skips m phenotype cohort l2 _ sid hl2]
    rw [process_line_writes m phenotype cohort _ row sid info hlen hinfo hid]
    exact dset_same _ sid _
  rw [hfile]
  dsimp only
  unfold catLookup
  rw [fold_files_skips software_type post _ sid hpost]
  rw [dUpdate_some acc1 _ sid _ hcsid]
  dsimp only
  rw [dset_same]
  dsimp only
  rw [dset_same]

/-- C3 amended witness: one file, one valid row; the record appears
verbatim. -/
theorem c3_amended_last_writer_record_witness :
    COLUMN_MAPPINGS "mrmega" = some mrmega_mapping ∧
    (split_dot "height.UKBB.mrmega.sumstats.txt.gz")[0]? = some "height" ∧
    (split_dot "height.UKBB.mrmega.sumstats.txt.gz")[1]? = some "UKBB" ∧
    mrmega_mapping.maxVal + 1 ≤
      (line_fields
        "rs123\t1\t100\tA\tG\t0.1\t0.2\t0.001\tc8\tc9\tc10\tc11\t0.3\tc13\tc14\tc15\t1000\tc17\t5").length ∧
    build_snp_info mrmega_mapping
      (line_fields
        "rs123\t1\t100\tA\tG\t0.1\t0.2\t0.001\tc8\tc9\tc10\tc11\t0.3\tc13\tc14\tc15\t1000\tc17\t5") =
      some ⟨"1", "100", "A", "G", "0.1", "0.2", "0.001", "0.3", "1000", "5"⟩ ∧
    (line_fields
      "rs123\t1\t100\tA\tG\t0.1\t0.2\t0.001\tc8\tc9\tc10\tc11\t0.3\tc13\tc14\tc15\t1000\tc17\t5")[mrmega_mapping.id]? =
      some "rs123" ∧
    catLookup
      (process_software_type "mrmega"
        ([] ++ ("height.UKBB.mrmega.sumstats.txt.gz",
          "hdr" :: ([] ++
            "rs123\t1\t100\tA\tG\t0.1\t0.2\t0.001\tc8\tc9\tc10\tc11\t0.3\tc13\tc14\tc15\t1000\tc17\t5" ::
            ([] : List String))) :: []))
      "rs123" "height" "UKBB" =
      some ⟨"1", "100", "A", "G", "0.1", "0.2", "0.001", "0.3", "1000", "5"⟩ :=
  ⟨by decide, by decide, by decide, by decide, by decide, by decide,
    c3_amended_last_writer_record "mrmega"
      "height.UKBB.mrmega.sumstats.txt.gz" mrmega_mapping "height" "UKBB"
      [] [] "hdr"
      "rs123\t1\t100\tA\tG\t0.1\t0.2\t0.001\tc8\tc9\tc10\tc11\t0.3\tc13\tc14\tc15\t1000\tc17\t5"
      "rs123" [] []
      ⟨"1", "100", "A", "G", "0.1", "0.2", "0.001", "0.3", "1000", "5"⟩
      (by decide) (by decide) (by decide) (by decide) (by decide) (by decide)
      (by intro l hl; simp at hl) (by intro f hf; simp at hf)⟩

/-- C3 counterexample: with two valid rows carrying the same identifier
in one file, the record of the first row (beta 0.1) does not appear in
the consolidated catalog: the second row (beta 0.9) overwrote it, so the
claim quantified over all valid rows fails. -/
theorem c3_counterexample_first_duplicate_lost :
    19 ≤ (line_fields
      "rs123\t1\t100\tA\tG\t0.1\t0.2\t0.001\tc8\tc9\tc10\tc11\t0.3\tc13\tc14\tc15\t1000\tc17\t5").length ∧
    build_snp_info mrmega_mapping
      (line_fields
        "rs123\t1\t100\tA\tG\t0.1\t0.2\t0.001\tc8\tc9\tc10\tc11\t0.3\tc13\tc14\tc15\t1000\tc17\t5") =
      some ⟨"1", "100", "A", "G", "0.1", "0.2", "0.001", "0.3", "1000", "5"⟩ ∧
    catLookup
      (process_software_type "mrmega"
        [("height.UKBB.mrmega.sumstats.txt.gz",
          ["hdr",
           "rs123\t1\t100\tA\tG\t0.1\t0.2\t0.001\tc8\tc9\tc10\tc11\t0.3\tc13\tc14\tc15\t1000\tc17\t5",
           "rs123\t1\t100\tA\tG\t0.9\t0.2\t0.001\tc8\tc9\tc10\tc11\t0.3\tc13\tc14\tc15\t1000\tc17\t5"])])
      "rs123" "height" "UKBB" =
      some ⟨"1", "100", "A", "G", "0.9", "0.2", "0.001", "0.3", "1000", "5"⟩ ∧
    ¬ (catLookup
      (process_software_type "mrmega"
        [("height.UKBB.mrmega.sumstats.txt.gz",
          ["hdr",
           "rs123\t1\t100\tA\tG\t0.1\t0.2\t0.001\tc8\tc9\tc10\tc11\t0.3\tc13\tc14\tc15\t1000\tc17\t5",
           "rs123\t1\t100\tA\tG\t0.9\t0.2\t0.001\tc8\tc9\tc10\tc11\t0.3\tc13\tc14\tc15\t1000\tc17\t5"])])
      "rs123" "height" "UKBB" =
      some ⟨"1", "100", "A", "G", "0.1", "0.2", "0.001", "0.3", "1000", "5"⟩) := by
  decide

/-- C1: evaluation of consolidation at the failing input.  Two files for
the same phenotype and different cohorts each carry variant rs123; the
UKBB record is present when its file is processed alone, but after both
files are processed the top-level dict update of process_software_type
has replaced the whole rs123 entry with the FinnGen file contribution,
so the UKBB cohort entry is gone, contradicting the claim that both
cohort entries are present. -/
theorem c1_cross_file_cohort_lost :
    catLookup
      (process_software_type "mrmega"
        [("height.UKBB.mrmega.sumstats.txt.gz",
          ["hdr",
           "rs123\t1\t100\tA\tG\t0.1\t0.2\t0.001\tc8\tc9\tc10\tc11\t0.3\tc13\tc14\tc15\t1000\tc17\t5"])])
      "rs123" "height" "UKBB" =
      some ⟨"1", "100", "A", "G", "0.1", "0.2", "0.001", "0.3", "1000", "5"⟩ ∧
    catLookup
      (process_software_type "mrmega"
        [("height.UKBB.mrmega.sumstats.txt.gz",
          ["hdr",
           "rs123\t1\t100\tA\tG\t0.1\t0.2\t0.001\tc8\tc9\tc10\tc11\t0.3\tc13\tc14\tc15\t1000\tc17\t5"]),
         ("height.FinnGen.mrmega.sumstats.txt.gz",
          ["hdr",
           "rs123\t1\t100\tA\tG\t0.9\t0.2\t0.001\tc8\tc9\tc10\tc11\t0.3\tc13\tc14\tc15\t1000\tc17\t5"])])
      "rs123" "height" "FinnGen" =
      some ⟨"1", "100", "A", "G", "0.9", "0.2", "0.001", "0.3", "1000", "5"⟩ ∧
    catLookup
      (process_software_type "mrmega"
        [("height.UKBB.mrmega.sumstats.txt.gz",
          ["hdr",
           "rs123\t1\t100\tA\tG\t0.1\t0.2\t0.001\tc8\tc9\tc10\tc11\t0.3\tc13\tc14\tc15\t1000\tc17\t5"]),
         ("height.FinnGen.mrmega.sumstats.txt.gz",
          ["hdr",
           "rs123\t1\t100\tA\tG\t0.9\t0.2\t0.001\tc8\tc9\tc10\tc11\t0.3\tc13\tc14\tc15\t1000\tc17\t5"])])
      "rs123" "height" "UKBB" = none := by
  decide

/-- C8 counterexample: the consolidated catalog depends on the order in
which the globbed files are processed: the same SET of input files
presented in the two possible orders yields catalogs that disagree on
the cohort key set under (rs123, height), because the top-level dict
update keeps only the last file contribution for a shared identifier.
Since the directory glob returns files in arbitrary order, identical
file sets and contents do not by themselves determine the catalog. -/
theorem c8_counterexample_order_dependent :
    [("height.UKBB.mrmega.sumstats.txt.gz",
      ["hdr",
       "rs123\t1\t100\tA\tG\t0.1\t0.2\t0.001\tc8\tc9\tc10\tc11\t0.3\tc13\tc14\tc15\t1000\tc17\t5"]),
     ("height.FinnGen.mrmega.sumstats.txt.gz",
      ["hdr",
       "rs123\t1\t100\tA\tG\t0.9\t0.2\t0.001\tc8\tc9\tc10\tc11\t0.3\tc13\tc14\tc15\t1000\tc17\t5"])].Perm
    [("height.FinnGen.mrmega.sumstats.txt.gz",
      ["hdr",
       "rs123\t1\t100\tA\tG\t0.9\t0.2\t0.001\tc8\tc9\tc10\tc11\t0.3\tc13\tc14\tc15\t1000\tc17\t5"]),
     ("height.UKBB.mrmega.sumstats.txt.gz",
      ["hdr",
       "rs123\t1\t100\tA\tG\t0.1\t0.2\t0.001\tc8\tc9\tc10\tc11\t0.3\tc13\tc14\tc15\t1000\tc17\t5"])] ∧
    catLookup
      (process_software_type "mrmega"
        [("height.UKBB.mrmega.sumstats.txt.gz",
          ["hdr",
           "rs123\t1\t100\tA\tG\t0.1\t0.2\t0.001\tc8\tc9\tc10\tc11\t0.3\tc13\tc14\tc15\t1000\tc17\t5"]),
         ("height.FinnGen.mrmega.sumstats.txt.gz",
          ["hdr",
           "rs123\t1\t100\tA\tG\t0.9\t0.2\t0.001\tc8\tc9\tc10\tc11\t0.3\tc13\tc14\tc15\t1000\tc17\t5"])])
      "rs123" "height" "UKBB" = none ∧
    catLookup
      (process_software_type "mrmega"
        [("height.FinnGen.mrmega.sumstats.txt.gz",
          ["hdr",
           "rs123\t1\t100\tA\tG\t0.9\t0.2\t0.001\tc8\tc9\tc10\tc11\t0.3\tc13\tc14\tc15\t1000\tc17\t5"]),
         ("height.UKBB.mrmega.sumstats.txt.gz",
          ["hdr",
           "rs123\t1\t100\tA\tG\t0.1\t0.2\t0.001\tc8\tc9\tc10\tc11\t0.3\tc13\tc14\tc15\t1000\tc17\t5"])])
      "rs123" "height" "UKBB" =
      some ⟨"1", "100", "A", "G", "0.1", "0.2", "0.001", "0.3", "1000", "5"⟩ :=
  ⟨List.Perm.swap _ _ [], by decide, by decide⟩

/-- C8 amended: consolidation is deterministic given the ordered list of
globbed input files and their contents: two runs over equal file lists
produce catalogs with the same identifier key set, the same phenotype
key set under every identifier, and the same record at every
(identifier, phenotype, cohort) triple.  Equality of the unordered file
set alone does not suffice, because the processing order matters for
shared identifiers. -/
theorem c8_amended_deterministic_given_list (software_type : String)
    (files1 files2 : List (String × List String)) (h : files1 = files2)
    (sid ph co : String) :
    ((process_software_type software_type files1 sid).isSome ↔
      (process_software_type software_type files2 sid).isSome) ∧
    ((((process_software_type software_type files1 sid).getD emptyD)
        ph).isSome ↔
      (((process_software_type software_type files2 sid).getD emptyD)
        ph).isSome) ∧
    catLookup (process_software_type software_type files1) sid ph co =
      catLookup (process_software_type software_type files2) sid ph co := by
  subst h
  exact ⟨Iff.rfl, Iff.rfl, rfl⟩

/-- C8 amended witness: two runs over the same concrete file list agree
at a concrete lookup. -/
theorem c8_amended_deterministic_given_list_witness :
    [("height.UKBB.mrmega.sumstats.txt.gz",
      ["hdr",
       "rs123\t1\t100\tA\tG\t0.1\t0.2\t0.001\tc8\tc9\tc10\tc11\t0.3\tc13\tc14\tc15\t1000\tc17\t5"])] =
    [("height.UKBB.mrmega.sumstats.txt.gz",
      ["hdr",
       "rs123\t1\t100\tA\tG\t0.1\t0.2\t0.001\tc8\tc9\tc10\tc11\t0.3\tc13\tc14\tc15\t1000\tc17\t5"])] ∧
    catLookup
      (process_software_type "mrmega"
        [("height.UKBB.mrmega.sumstats.txt.gz",
          ["hdr",
           "rs123\t1\t100\tA\tG\t0.1\t0.2\t0.001\tc8\tc9\tc10\tc11\t0.3\tc13\tc14\tc15\t1000\tc17\t5"])])
      "rs123" "height" "UKBB" =
    catLookup
      (process_software_type "mrmega"
        [("height.UKBB.mrmega.sumstats.txt.gz",
          ["hdr",
           "rs123\t1\t100\tA\tG\t0.1\t0.2\t0.001\tc8\tc9\tc10\tc11\t0.3\tc13\tc14\tc15\t1000\tc17\t5"])])
      "rs123" "height" "UKBB" :=
  ⟨rfl,
    (c8_amended_deterministic_given_list "mrmega"
      [("height.UKBB.mrmega.sumstats.txt.gz",
        ["hdr",
         "rs123\t1\t100\tA\tG\t0.1\t0.2\t0.001\tc8\tc9\tc10\tc11\t0.3\tc13\tc14\tc15\t1000\tc17\t5"])]
      [("height.UKBB.mrmega.sumstats.txt.gz",
        ["hdr",
         "rs123\t1\t100\tA\tG\t0.1\t0.2\t0.001\tc8\tc9\tc10\tc11\t0.3\tc13\tc14\tc15\t1000\tc17\t5"])]
      rfl "rs123" "height" "UKBB").2.2⟩

end Consolidate

namespace MatchSnps

/-- The per-line matching step preserves the invariant that both the
matched set and the per-file catalog only mention identifiers present in
the original consolidated catalog. -/
theorem process_line_inv (m : ColumnMapping) (orig : Catalog)
    (phenotype cohort : String) (st : Catalog × (String → Bool))
    (line : String)
    (h : ∀ q, (st.2 q = true → (orig q).isSome = true) ∧
      ((st.1 q).isSome = true → (orig q).isSome = true)) :
    ∀ q, ((process_line m orig phenotype cohort st line).2 q = true →
        (orig q).isSome = true) ∧
      (((process_line m orig phenotype cohort st line).1 q).isSome = true →
        (orig q).isSome = true) := by
  intro q
  unfold process_line
  dsimp only
  by_cases hlen : (line_fields line).length < m.maxVal + 1
  · rw [if_pos hlen]; exact h q
  · rw [if_neg hlen]
    rcases hi : (line_fields line)[m.id]? with _ | snp_id <;> dsimp only
    · exact h q
    · by_cases ho : (orig snp_id).isSome = true
      · rw [if_pos ho]
        rcases hb : build_snp_info m (line_fields line) with _ | info <;>
          dsimp only
        · refine ⟨?_, (h q).2⟩
          intro hq
          by_cases hqs : q = snp_id
          · subst hqs; exact ho
          · rw [if_neg hqs] at hq
            exact (h q).1 hq
        · constructor
          · intro hq
            by_cases hqs : q = snp_id
            · subst hqs; exact ho
            · rw [if_neg hqs] at hq
              exact (h q).1 hq
          · intro hq
            by_cases hqs : q = snp_id
            · subst hqs; exact ho
            · rw [dset_other st.1 snp_id _ q hqs] at hq
              exact (h q).2 hq
      · rw [if_neg ho]; exact h q

/-- Folding the per-line matching step preserves the subset invariant. -/
theorem fold_lines_inv (m : ColumnMapping) (orig : Catalog)
    (phenotype cohort : String) (ls : List String)
    (st : Catalog × (String → Bool))
    (h : ∀ q, (st.2 q = true → (orig q).isSome = true) ∧
      ((st.1 q).isSome = true → (orig q).isSome = true)) :
    ∀ q, ((ls.foldl (process_line m orig phenotype cohort) st).2 q = true →
        (orig q).isSome = true) ∧
      (((ls.foldl (process_line m orig phenotype cohort) st).1 q).isSome =
          true → (orig q).isSome = true) := by
  induction ls generalizing st with
  | nil => exact h
  | cons l ls ih =>
    rw [List.foldl_cons]
    exact ih _ (process_line_inv m orig phenotype cohort st l h)

/-- A successfully processed subset file only mentions identifiers of
the original consolidated catalog, both in its matched set and in its
per-file catalog. -/
theorem process_gz_file_inv (software_type : String) (orig : Catalog)
    (filename : String) (lines : List String)
    (fr : Catalog × (String → Bool))
    (h : process_gz_file software_type orig filename lines = some fr) :
    ∀ q, (fr.2 q = true → (orig q).isSome = true) ∧
      ((fr.1 q).isSome = true → (orig q).isSome = true) := by
  unfold process_gz_file at h
  rcases hA : COLUMN_MAPPINGS software_type with _ | m <;> rw [hA] at h
  · exact Option.noConfusion h
  rcases hB : (split_dot filename)[0]? with _ | phenotype <;> rw [hB] at h
  · exact Option.noConfusion h
  rcases hC : (split_dot filename)[1]? with _ | cohort <;> rw [hC] at h
  · exact Option.noConfusion h
  rcases lines with _ | ⟨hd, rest⟩
  · exact Option.noConfusion h
  dsimp only at h
  obtain rfl := Option.some.inj h
  apply fold_lines_inv
  intro q
  constructor
  · intro hq; exact absurd hq (by simp)
  · intro hq; exact absurd hq (by simp [emptyD])

/-- C5: every identifier in the match result of re-matching, and every
identifier in the total matched identifier set, is a key of the loaded
original consolidated catalog: the matched identifiers are a subset of
the original catalog keys, for every input list of subset files. -/
theorem c5_matched_subset_of_original (software_type : String)
    (orig : Catalog) (files : List (String × List String)) (sid : String)
    (h : (process_software_type software_type orig files).2 sid = true ∨
      ((process_software_type software_type orig files).1 sid).isSome =
        true) :
    (orig sid).isSome = true := by
  unfold process_software_type at h
  suffices hh : ∀ (fs : List (String × List String))
      (acc : Catalog × (String → Bool)),
      (∀ q, (acc.2 q = true → (orig q).isSome = true) ∧
        ((acc.1 q).isSome = true → (orig q).isSome = true)) →
      ∀ q, ((fs.foldl
          (fun acc f =>
            match process_gz_file software_type orig f.1 f.2 with
            | some fr => (merge_file_data acc.1 fr.1,
                fun q => acc.2 q || fr.2 q)
            | none => acc) acc).2 q = true → (orig q).isSome = true) ∧
        (((fs.foldl
          (fun acc f =>
            match process_gz_file software_type orig f.1 f.2 with
            | some fr => (merge_file_data acc.1 fr.1,
                fun q => acc.2 q || fr.2 q)
            | none => acc) acc).1 q).isSome = true →
          (orig q).isSome = true) by
    have hinit := hh files (emptyD, fun _ => false) ?_ sid
    · rcases h with h | h
      · exact (hinit).1 h
      · exact (hinit).2 h
    · intro q
      exact ⟨fun hq => absurd hq (by simp),
        fun hq => absurd hq (by simp [emptyD])⟩
  intro fs
  induction fs with
  | nil => intro acc hacc; exact hacc
  | cons f fs ih =>
    intro acc hacc
    rw [List.foldl_cons]
    apply ih
    rcases hp : process_gz_file software_type orig f.1 f.2 with _ | fr <;>
      dsimp only
    · exact hacc
    · have hfr := process_gz_file_inv software_type orig f.1 f.2 fr hp
      intro q
      constructor
      · intro hq
        rcases Bool.or_eq_true _ _ |>.mp hq with hq | hq
        · exact (hacc q).1 hq
        · exact (hfr q).1 hq
      · intro hq
        unfold merge_file_data at hq
        rcases hf : fr.1 q with _ | phm <;> rw [hf] at hq
        · exact (hacc q).2 hq
        · exact (hfr q).2 (by rw [hf]; rfl)

/-- C5 witness: a concrete original catalog with only rs123 and one
subset file containing rs123; the identifier is matched and the theorem
yields its presence in the original catalog. -/
theorem c5_matched_subset_of_original_witness :
    ((process_software_type "mrmega" (dset emptyD "rs123" emptyD)
        [("height.UKBB.mrmega_pval_up_to_0,0001.gz",
          ["hdr",
           "rs123\t1\t100\tA\tG\t0.1\t0.2\t0.001\tc8\tc9\tc10\tc11\t0.3\tc13\tc14\tc15\t1000\tc17\t5"])]).2
      "rs123" = true ∨
      ((process_software_type "mrmega" (dset emptyD "rs123" emptyD)
        [("height.UKBB.mrmega_pval_up_to_0,0001.gz",
          ["hdr",
           "rs123\t1\t100\tA\tG\t0.1\t0.2\t0.001\tc8\tc9\tc10\tc11\t0.3\tc13\tc14\tc15\t1000\tc17\t5"])]).1
        "rs123").isSome = true) ∧
    ((dset emptyD "rs123" emptyD : Catalog) "rs123").isSome = true :=
  ⟨Or.inl (by decide),
    c5_matched_subset_of_original "mrmega" (dset emptyD "rs123" emptyD)
      [("height.UKBB.mrmega_pval_up_to_0,0001.gz",
        ["hdr",
         "rs123\t1\t100\tA\tG\t0.1\t0.2\t0.001\tc8\tc9\tc10\tc11\t0.3\tc13\tc14\tc15\t1000\tc17\t5"])]
      "rs123" (Or.inl (by decide))⟩

/-- C6: when a file contributes a phenotype map for a variant, the merge
of match_all_snps process_software_type stores exactly the contributed
cohort map under that phenotype, replacing (not merging into) whatever
cohort map an earlier file had left there, for every accumulated
catalog. -/
theorem c6_shallow_phenotype_merge (new_data file_data : Catalog)
    (sid : String) (phm : PhenoMap) (ph : String) (cm : CohortMap)
    (h1 : file_data sid = some phm) (h2 : phm ph = some cm) :
    ∃ phm2, merge_file_data new_data file_data sid = some phm2 ∧
      phm2 ph = some cm := by
  refine ⟨dUpdate ((new_data sid).getD emptyD) phm, ?_, ?_⟩
  · unfold merge_file_data
    rw [h1]
  · exact dUpdate_some _ phm ph cm h2

/-- C6 witness: the accumulated catalog holds a UKBB record for
(rs123, height); a later file contributes a FinnGen-only cohort map for
the same variant and phenotype; after the merge the cohort map under
(rs123, height) is exactly the FinnGen one and the UKBB entry is gone. -/
theorem c6_shallow_phenotype_merge_witness :
    (dset emptyD "rs123"
        (dset emptyD "height"
          (dset emptyD "FinnGen"
            ⟨"1", "100", "A", "G", "0.9", "0.2", "0.001", "0.3", "1000",
              "5"⟩)) : Catalog) "rs123" =
      some (dset emptyD "height"
        (dset emptyD "FinnGen"
          ⟨"1", "100", "A", "G", "0.9", "0.2", "0.001", "0.3", "1000",
            "5"⟩)) ∧
    (dset emptyD "height"
        (dset emptyD "FinnGen"
          ⟨"1", "100", "A", "G", "0.9", "0.2", "0.001", "0.3", "1000",
            "5"⟩) : PhenoMap) "height" =
      some (dset emptyD "FinnGen"
        ⟨"1", "100", "A", "G", "0.9", "0.2", "0.001", "0.3", "1000", "5"⟩) ∧
    (∃ phm2,
      merge_file_data
        (dset emptyD "rs123"
          (dset emptyD "height"
            (dset emptyD "UKBB"
              ⟨"1", "100", "A", "G", "0.1", "0.2", "0.001", "0.3", "1000",
                "5"⟩)))
        (dset emptyD "rs123"
          (dset emptyD "height"
            (dset emptyD "FinnGen"
              ⟨"1", "100", "A", "G", "0.9", "0.2", "0.001", "0.3", "1000",
                "5"⟩)))
        "rs123" = some phm2 ∧
      phm2 "height" =
        some (dset emptyD "FinnGen"
          ⟨"1", "100", "A", "G", "0.9", "0.2", "0.001", "0.3", "1000",
            "5"⟩)) ∧
    catLookup
      (merge_file_data
        (dset emptyD "rs123"
          (dset emptyD "height"
            (dset emptyD "UKBB"
              ⟨"1", "100", "A", "G", "0.1", "0.2", "0.001", "0.3", "1000",
                "5"⟩)))
        (dset emptyD "rs123"
          (dset emptyD "height"
            (dset emptyD "FinnGen"
              ⟨"1", "100", "A", "G", "0.9", "0.2", "0.001", "0.3", "1000",
                "5"⟩))))
      "rs123" "height" "UKBB" = none :=
  ⟨rfl, rfl,
    c6_shallow_phenotype_merge _ _ "rs123" _ "height" _ rfl rfl,
    by decide⟩

end MatchSnps

end GenomicsData

